import Mathlib

/-!
Shallow embedding of the clashai client library core (src/index.ts, class
`Client`): the per-user conversation-history store, the `makeRequest`
dispatcher, the `getUsage` statistics query, the constructor, and the
event-notification channel.

Modelling conventions:
* `Map<string, Messages[]>` becomes an association list with JavaScript
  `Map` semantics: `set` on an existing key updates it in place, a new key
  is appended at the end; `get` returns the first (only) binding.
* The `axios` call's result is passed in as an explicit `outcome`
  parameter (`Except Err Response`): the code cannot observe anything of
  the transport besides the value it resolves to or the error it throws.
* `crypto.randomUUID()` is passed in as an explicit `fresh : String`
  parameter; its uniqueness is a probabilistic property of the generator
  and appears as a freshness hypothesis where a claim needs it.
* JavaScript truthiness: `!x` on an optional string is true exactly when
  the value is absent or the empty string (`falsyStr`).
* `emit` is modelled as appending to an event log; listeners themselves
  are not modelled.
* A JSON-encoded string is represented by its parse denotation: a `Json`
  value (what `JSON.parse` would yield), or a parse failure.
-/

/-- Possible roles in a conversation (src `Role`): user, system, assistant. -/
inductive Role
  | user
  | system
  | assistant
deriving DecidableEq, Repr

/-- One conversation message (src type `Messages`): a role and a content string. -/
structure Messages where
  role : Role
  content : String
deriving DecidableEq, Repr

/-- The `message` object inside a choice of a completion response. -/
structure ChoiceMessage where
  content : String
deriving DecidableEq, Repr

/-- One element of the `choices` array of a completion response. -/
structure Choice where
  index : Nat
  message : ChoiceMessage
  logprobs : String
  finish_reason : String
deriving DecidableEq, Repr

/-- Token-usage statistics of a completion response. -/
structure Usage where
  prompt_tokens : Nat
  completion_tokens : Nat
  total_tokens : Nat
deriving DecidableEq, Repr

/-- The body of a `/v1/chat/completions` response (src type `Response`). -/
structure Response where
  id : String
  object : String
  created : Nat
  model : String
  system_fingerprint : Option String
  choices : List Choice
  usage : Usage
deriving DecidableEq, Repr

/-- A JavaScript value that is a string or a number (`string | number`). -/
inductive StrOrNum
  | str (s : String)
  | num (n : Int)
deriving DecidableEq, Repr

/-- The inner object of a `/my_stats/:id` response (the `result` field of
src type `StatsResultResponse`). -/
structure StatsResult where
  message : String
  user_id : StrOrNum
  requests_all_time : Nat
  requests_this_minute : Nat
deriving DecidableEq, Repr

/-- A JSON value, used as the denotation of `JSON.parse` output and of the
runtime shape of the `getUsage` return value. -/
inductive Json
  | null
  | bool (b : Bool)
  | num (n : Int)
  | str (s : String)
  | arr (elems : List Json)
  | obj (fields : List (String × Json))

/-- Runtime errors that the dispatch operations can catch: an axios
transport/status error, a TypeError from property access on `undefined`,
or a JSON.parse failure. -/
inductive Err
  | axios (message : String)
  | typeError (message : String)
  | jsonParse (message : String)
deriving DecidableEq, Repr

/-- The TypeError thrown by `response.data.choices[0].message.content`
when `choices` is empty (`choices[0]` is `undefined`). -/
def choicesTypeError : Err :=
  Err.typeError "Cannot read properties of undefined"

/-- An emitted event (src type `ClientEvents`): `error` with the error as
payload, or `requestMade` with `{user_id, messages}` as payload. -/
inductive Event
  | error (e : Err)
  | requestMade (user_id : String) (messages : List Messages)
deriving DecidableEq, Repr

/-- The user-histories store: `Map<string, Array<Messages>>`. -/
abbrev HistMap := List (String × List Messages)

/-- `Map.get` (also `Map.has` via `isSome`): first binding of the key. -/
def mapGet : HistMap → String → Option (List Messages)
  | [], _ => none
  | p :: rest, k => if p.1 = k then some p.2 else mapGet rest k

/-- `Map.set`: update an existing binding in place, else append at the end. -/
def mapSet : HistMap → String → List Messages → HistMap
  | [], k, v => [(k, v)]
  | p :: rest, k, v => if p.1 = k then (k, v) :: rest else p :: mapSet rest k v

/-- The private state of a `Client` instance: `#api_key`, `#model`,
`#user_histories`. The base URL is a constant. -/
structure ClientState where
  api_key : String
  model : String
  user_histories : HistMap
deriving DecidableEq, Repr

/-- The constant `#base_url`. -/
def base_url : String := "http://clashai.3utilities.com:25621"

/-- JavaScript truthiness on an optional string: `!x` is true exactly when
`x` is absent (undefined) or the empty string. -/
def falsyStr : Option String → Bool
  | none => true
  | some s => s == ""

/-- The constructor: `if (!api_key) throw "API key is required."; else if
(!model) throw "Model is required."; else store both`. Arguments are
optional strings because at runtime either may be missing. -/
def Client.construct (api_key model : Option String) : Except String ClientState :=
  if falsyStr api_key then Except.error "API key is required."
  else if falsyStr model then Except.error "Model is required."
  else Except.ok { api_key := api_key.getD "", model := model.getD "", user_histories := [] }

/-- `#get_user_history`: if the key is absent, insert an empty array;
return the (possibly updated) map together with the array the code
aliases. -/
def get_user_history (m : HistMap) (user_id : String) : HistMap × List Messages :=
  match mapGet m user_id with
  | some h => (m, h)
  | none => (mapSet m user_id [], [])

/-- `if (!user_id) user_id = crypto.randomUUID();` — the identifier the
call actually uses: the generated `fresh` value when the argument is
absent or empty, else the supplied string. -/
def resolveUserId (user_id : Option String) (fresh : String) : String :=
  if falsyStr user_id then fresh else user_id.getD ""

/-- The body passed to `axios.post`: `{ model: this.#model, messages: user_history }`. -/
structure SentRequest where
  model : String
  messages : List Messages
deriving DecidableEq, Repr

/-- Everything observable about one `makeRequest` call: the state after the
call, the events emitted (in order), the payload handed to `axios.post`,
and the value returned to the caller (`none` models `null`). -/
structure MakeRequestResult where
  state : ClientState
  events : List Event
  sent : SentRequest
  ret : Option Response
deriving DecidableEq, Repr

/-- `Client.makeRequest(messages, user_id?)`. Resolve the user id
(generating `fresh` when absent or empty), get-or-create the history,
push the input messages, post `{model, messages: history}`; on a resolved
response read `choices[0].message.content` (a TypeError when `choices` is
empty, caught by the same catch), push the assistant reply, emit
`requestMade` with the live history, and return the response; on any
caught error emit `error` and return null. -/
def Client.makeRequest (c : ClientState) (messages : List Messages)
    (user_id : Option String) (fresh : String)
    (outcome : Except Err Response) : MakeRequestResult :=
  let uid := resolveUserId user_id fresh
  let fetched := get_user_history c.user_histories uid
  let hist := fetched.2 ++ messages
  let pushed := mapSet fetched.1 uid hist
  let sent : SentRequest := { model := c.model, messages := hist }
  match outcome with
  | Except.error e =>
      { state := { c with user_histories := pushed },
        events := [Event.error e], sent := sent, ret := none }
  | Except.ok resp =>
      match resp.choices with
      | [] =>
          { state := { c with user_histories := pushed },
            events := [Event.error choicesTypeError], sent := sent, ret := none }
      | ch :: _ =>
          let hist2 := hist ++ [{ role := Role.assistant, content := ch.message.content }]
          { state := { c with user_histories := mapSet pushed uid hist2 },
            events := [Event.requestMade uid hist2], sent := sent, ret := some resp }

/-- The `result` field of the inner stats object as a JSON value. -/
def StatsResult.toJson (r : StatsResult) : Json :=
  Json.obj [("message", Json.str r.message),
    ("user_id", match r.user_id with
      | StrOrNum.str s => Json.str s
      | StrOrNum.num n => Json.num n),
    ("requests_all_time", Json.num (Int.ofNat r.requests_all_time)),
    ("requests_this_minute", Json.num (Int.ofNat r.requests_this_minute))]

/-- The wire shape `{ result: { message, user_id, requests_all_time,
requests_this_minute } }` as a JSON value. -/
def statsResponseJson (r : StatsResult) : Json :=
  Json.obj [("result", r.toJson)]

/-- How one `getUsage` call's transport resolves: the get threw; the body's
`result` field arrived structured; it arrived as a string whose
`JSON.parse` denotation is `payload`; or it arrived as a string on which
`JSON.parse` throws. -/
inductive UsageOutcome
  | fail (e : Err)
  | structured (r : StatsResult)
  | encodedOk (payload : Json)
  | encodedBad (e : Err)

/-- Everything observable about one `getUsage` call. The returned body is
given as its runtime JSON shape, since after `response.data =
JSON.parse(response.data.result)` the static type no longer describes it. -/
structure GetUsageResult where
  state : ClientState
  events : List Event
  ret : Option Json

/-- `Client.getUsage(user_id)`: get the stats URL; if `typeof
response.data.result === "string"` replace the whole `response.data` with
`JSON.parse(response.data.result)`; return the data; on any caught error
emit `error` and return null. The histories store is never touched. -/
def Client.getUsage (c : ClientState) (user_id : String)
    (outcome : UsageOutcome) : GetUsageResult :=
  match outcome with
  | UsageOutcome.fail e => { state := c, events := [Event.error e], ret := none }
  | UsageOutcome.structured r => { state := c, events := [], ret := some (statsResponseJson r) }
  | UsageOutcome.encodedOk payload => { state := c, events := [], ret := some payload }
  | UsageOutcome.encodedBad e => { state := c, events := [Event.error e], ret := none }

/-- One `makeRequest` call's inputs, for reasoning about call sequences. -/
structure Call where
  messages : List Messages
  user_id : Option String
  fresh : String
  outcome : Except Err Response

/-- The state after one call of a sequence. -/
def stepCall (c : ClientState) (call : Call) : ClientState :=
  (Client.makeRequest c call.messages call.user_id call.fresh call.outcome).state

/-- The state after a sequence of `makeRequest` calls, in order. -/
def runCalls (c : ClientState) (calls : List Call) : ClientState :=
  calls.foldl stepCall c

/-- The assistant reply text a given transport outcome yields, when the
call succeeds (`choices[0].message.content`). -/
def successReply (outcome : Except Err Response) : Option String :=
  match outcome with
  | Except.error _ => none
  | Except.ok resp =>
      match resp.choices with
      | [] => none
      | ch :: _ => some ch.message.content

/-- The assistant message a call appends: one message on success, none on
failure. -/
def assistantSuffix (outcome : Except Err Response) : List Messages :=
  match successReply outcome with
  | none => []
  | some content => [{ role := Role.assistant, content := content }]

/-- Whether a call succeeds (returns non-null): the transport resolved and
`choices` is nonempty. -/
def Call.succeeds (call : Call) : Bool :=
  (successReply call.outcome).isSome

/-- Whether a transport outcome makes `makeRequest` fail. -/
def failureOutcome (outcome : Except Err Response) : Bool :=
  (successReply outcome).isNone

/-- The error a failing `makeRequest` call catches: the transport error
itself, or the TypeError from indexing an empty `choices`. -/
def callError (outcome : Except Err Response) : Option Err :=
  match outcome with
  | Except.error e => some e
  | Except.ok resp =>
      match resp.choices with
      | [] => some choicesTypeError
      | _ :: _ => none

/-- The error a failing `getUsage` call catches. -/
def usageError : UsageOutcome → Option Err
  | UsageOutcome.fail e => some e
  | UsageOutcome.encodedBad e => some e
  | UsageOutcome.structured _ => none
  | UsageOutcome.encodedOk _ => none

/-- Whether a `getUsage` outcome is a failure. -/
def usageFailure (outcome : UsageOutcome) : Bool :=
  (usageError outcome).isSome

/-- The stored history of one user, the missing entry read as empty. -/
def histAt (c : ClientState) (user_id : String) : List Messages :=
  (mapGet c.user_histories user_id).getD []

/-- Recognizes `error` events. -/
def isErrorEvent : Event → Bool
  | Event.error _ => true
  | Event.requestMade _ _ => false

/-- Recognizes `requestMade` events. -/
def isRequestMadeEvent : Event → Bool
  | Event.error _ => false
  | Event.requestMade _ _ => true

/-- A sample constructed client, for concrete evaluations. -/
def exClient : ClientState :=
  { api_key := "key", model := "gpt-4o", user_histories := [] }

/-- A sample successful completion response with one choice. -/
def exResponse : Response :=
  { id := "chatcmpl-1", object := "chat.completion", created := 0, model := "gpt-4o",
    system_fingerprint := none,
    choices := [{ index := 0, message := { content := "hello there" },
                  logprobs := "", finish_reason := "stop" }],
    usage := { prompt_tokens := 1, completion_tokens := 1, total_tokens := 2 } }

/-- A sample user message. -/
def exUserMsg : Messages := { role := Role.user, content := "hi" }

/-- A sample inner stats object. -/
def exStats : StatsResult :=
  { message := "Success", user_id := StrOrNum.str "u1",
    requests_all_time := 5, requests_this_minute := 1 }

/-! ## Map and history-store lemmas -/

theorem mapGet_mapSet_self (m : HistMap) (k : String) (v : List Messages) :
    mapGet (mapSet m k v) k = some v := by
  induction m with
  | nil => simp [mapSet, mapGet]
  | cons p rest ih =>
      by_cases h : p.1 = k
      · simp [mapSet, mapGet, h]
      · simp [mapSet, mapGet, h, ih]

theorem mapGet_mapSet_other (m : HistMap) (k j : String) (v : List Messages)
    (h : j ≠ k) :
    mapGet (mapSet m k v) j = mapGet m j := by
  induction m with
  | nil => simp [mapSet, mapGet, Ne.symm h]
  | cons p rest ih =>
      by_cases hp : p.1 = k
      · subst hp
        simp [mapSet, mapGet, Ne.symm h]
      · simp [mapSet, mapGet, hp, ih]

theorem get_user_history_snd (m : HistMap) (k : String) :
    (get_user_history m k).2 = (mapGet m k).getD [] := by
  cases h : mapGet m k <;> simp [get_user_history, h]

theorem get_user_history_fst_get_self (m : HistMap) (k : String) :
    mapGet (get_user_history m k).1 k = some ((mapGet m k).getD []) := by
  cases h : mapGet m k <;> simp [get_user_history, h, mapGet_mapSet_self]

theorem get_user_history_fst_get_other (m : HistMap) (k j : String) (h : j ≠ k) :
    mapGet (get_user_history m k).1 j = mapGet m j := by
  cases hm : mapGet m k <;>
    simp [get_user_history, hm, mapGet_mapSet_other _ _ _ _ h]

/-! ## Per-call lemmas about makeRequest -/

theorem makeRequest_mapGet_resolved (c : ClientState) (messages : List Messages)
    (user_id : Option String) (fresh : String) (outcome : Except Err Response) :
    mapGet (Client.makeRequest c messages user_id fresh outcome).state.user_histories
        (resolveUserId user_id fresh)
      = some (histAt c (resolveUserId user_id fresh) ++ messages
          ++ assistantSuffix outcome) := by
  cases outcome with
  | error e =>
      simp [Client.makeRequest, histAt, assistantSuffix, successReply,
        mapGet_mapSet_self, get_user_history_snd]
  | ok resp =>
      cases hc : resp.choices with
      | nil =>
          simp [Client.makeRequest, hc, histAt, assistantSuffix, successReply,
            mapGet_mapSet_self, get_user_history_snd]
      | cons ch rest =>
          simp [Client.makeRequest, hc, histAt, assistantSuffix, successReply,
            mapGet_mapSet_self, get_user_history_snd]

theorem makeRequest_histAt_resolved (c : ClientState) (messages : List Messages)
    (user_id : Option String) (fresh : String) (outcome : Except Err Response) :
    histAt (Client.makeRequest c messages user_id fresh outcome).state
        (resolveUserId user_id fresh)
      = histAt c (resolveUserId user_id fresh) ++ messages
          ++ assistantSuffix outcome := by
  have h := makeRequest_mapGet_resolved c messages user_id fresh outcome
  simp only [histAt] at h ⊢
  rw [h]
  rfl

theorem makeRequest_mapGet_other (c : ClientState) (messages : List Messages)
    (user_id : Option String) (fresh : String) (outcome : Except Err Response)
    (j : String) (h : j ≠ resolveUserId user_id fresh) :
    mapGet (Client.makeRequest c messages user_id fresh outcome).state.user_histories j
      = mapGet c.user_histories j := by
  cases outcome with
  | error e =>
      simp [Client.makeRequest, mapGet_mapSet_other _ _ _ _ h,
        get_user_history_fst_get_other _ _ _ h]
  | ok resp =>
      cases hc : resp.choices <;>
        simp [Client.makeRequest, hc, mapGet_mapSet_other _ _ _ _ h,
          get_user_history_fst_get_other _ _ _ h]

theorem makeRequest_ret_isSome (c : ClientState) (call : Call) :
    (Client.makeRequest c call.messages call.user_id call.fresh call.outcome).ret.isSome
      = call.succeeds := by
  cases ho : call.outcome with
  | error e => simp [Client.makeRequest, ho, Call.succeeds, successReply]
  | ok resp =>
      cases hc : resp.choices <;>
        simp [Client.makeRequest, ho, hc, Call.succeeds, successReply]

theorem resolveUserId_some_ne (s fresh : String) (h : s ≠ "") :
    resolveUserId (some s) fresh = s := by
  simp [resolveUserId, falsyStr, h]

theorem assistantSuffix_length (outcome : Except Err Response) :
    (assistantSuffix outcome).length
      = if (successReply outcome).isSome then 1 else 0 := by
  unfold assistantSuffix
  cases successReply outcome <;> simp

theorem runCalls_histAt_length (s : String) (hs : s ≠ "") (calls : List Call) :
    ∀ c : ClientState, (∀ call ∈ calls, call.user_id = some s) →
    (histAt (runCalls c calls) s).length
      = (histAt c s).length
        + ((calls.map fun call => call.messages.length).sum
            + calls.countP Call.succeeds) := by
  induction calls with
  | nil => intro c _; simp [runCalls]
  | cons call rest ih =>
      intro c hall
      have hcall : call.user_id = some s := hall call (List.mem_cons_self _ _)
      have hrest : ∀ x ∈ rest, x.user_id = some s :=
        fun x hx => hall x (List.mem_cons_of_mem _ hx)
      have hstep : runCalls c (call :: rest) = runCalls (stepCall c call) rest := by
        simp [runCalls]
      rw [hstep, ih (stepCall c call) hrest]
      have hhist : histAt (stepCall c call) s
          = histAt c s ++ call.messages ++ assistantSuffix call.outcome := by
        unfold stepCall
        have h1 := makeRequest_histAt_resolved c call.messages call.user_id
          call.fresh call.outcome
        rw [hcall, resolveUserId_some_ne s call.fresh hs] at h1
        rw [hcall]
        exact h1
      rw [hhist]
      cases hsucc : (successReply call.outcome).isSome <;>
        simp [List.countP_cons, Call.succeeds, hsucc, assistantSuffix_length] <;>
        omega

/-! ## Claim theorems -/

/-- A sample call whose supplied user identifier is the empty string: the
code treats it as absent and redirects the call to a generated id. -/
def exEmptyIdCall : Call :=
  { messages := [exUserMsg], user_id := some "", fresh := "gen-uuid-1",
    outcome := Except.ok exResponse }

/-- A sample successful call with the ordinary user identifier "u1". -/
def exGoodCall : Call :=
  { messages := [exUserMsg], user_id := some "u1", fresh := "gen-uuid-2",
    outcome := Except.ok exResponse }

/-- C1, counterexample: one successful makeRequest call that passes the
same user_id every time, namely the empty string, appends one input
message and succeeds (N = 1, sum of message counts = 1), yet the stored
history for that user_id afterwards is empty — JavaScript truthiness makes
the call use a generated identifier instead. -/
theorem history_length_empty_uid_counterexample :
    exEmptyIdCall.succeeds = true ∧
    (histAt (runCalls exClient [exEmptyIdCall]) "").length
      ≠ ([exEmptyIdCall].map fun call => call.messages.length).sum
          + [exEmptyIdCall].countP Call.succeeds := by
  refine ⟨rfl, ?_⟩
  decide

/-- C1, amended: a call succeeds (returns non-null) exactly when its
transport outcome resolves with a nonempty choices array; and for every
sequence of makeRequest calls on one Client all supplying the same
non-empty user_id, starting with no stored history for it, the stored
history afterwards has length equal to the sum of the lengths of all
messages arguments (successful or failed) plus the number of successful
calls. -/
theorem history_length_invariant :
    (∀ (c : ClientState) (call : Call),
        (Client.makeRequest c call.messages call.user_id call.fresh
          call.outcome).ret.isSome = call.succeeds) ∧
    ∀ (c : ClientState) (s : String), s ≠ "" → histAt c s = [] →
      ∀ calls : List Call, (∀ call ∈ calls, call.user_id = some s) →
        (histAt (runCalls c calls) s).length
          = (calls.map fun call => call.messages.length).sum
              + calls.countP Call.succeeds := by
  constructor
  · exact makeRequest_ret_isSome
  · intro c s hs h0 calls hall
    have h := runCalls_histAt_length s hs calls c hall
    rw [h0] at h
    simpa using h

/-- Witness for the amended C1: one successful call for "u1" on a fresh
client leaves a history of length 1 + 1. -/
theorem history_length_invariant_witness :
    (histAt (runCalls exClient [exGoodCall]) "u1").length
      = ([exGoodCall].map fun call => call.messages.length).sum
          + [exGoodCall].countP Call.succeeds :=
  history_length_invariant.2 exClient "u1" (by decide) rfl [exGoodCall] (by decide)

/-- C2: every makeRequest call posts a body carrying the configured model
identifier and, as its messages field, the entire stored history of the
resolved user_id with the caller-supplied messages appended at the end in
order. -/
theorem sent_payload_full_history (c : ClientState) (messages : List Messages)
    (user_id : Option String) (fresh : String) (outcome : Except Err Response) :
    (Client.makeRequest c messages user_id fresh outcome).sent
      = { model := c.model,
          messages := histAt c (resolveUserId user_id fresh) ++ messages } := by
  cases outcome with
  | error e => simp [Client.makeRequest, histAt, get_user_history_snd]
  | ok resp =>
      cases hc : resp.choices <;>
        simp [Client.makeRequest, hc, histAt, get_user_history_snd]

/-- C3: a failed makeRequest call (transport error or empty choices) leaves
the stored history of the resolved user_id equal to the prior history plus
the newly appended input messages, with no assistant message appended. -/
theorem failed_call_history (c : ClientState) (messages : List Messages)
    (user_id : Option String) (fresh : String) (outcome : Except Err Response)
    (h : failureOutcome outcome = true) :
    histAt (Client.makeRequest c messages user_id fresh outcome).state
        (resolveUserId user_id fresh)
      = histAt c (resolveUserId user_id fresh) ++ messages := by
  have h2 := makeRequest_histAt_resolved c messages user_id fresh outcome
  have h3 : assistantSuffix outcome = [] := by
    unfold assistantSuffix
    unfold failureOutcome at h
    cases hs : successReply outcome
    · simp
    · rw [hs] at h
      simp at h
  rw [h3] at h2
  simpa using h2

/-- Witness for C3 at a concrete network failure. -/
theorem failed_call_history_witness :
    histAt (Client.makeRequest exClient [exUserMsg] (some "u1") "gen"
        (Except.error (Err.axios "network error"))).state
        (resolveUserId (some "u1") "gen")
      = histAt exClient (resolveUserId (some "u1") "gen") ++ [exUserMsg] :=
  failed_call_history exClient [exUserMsg] (some "u1") "gen"
    (Except.error (Err.axios "network error")) (by decide)

/-- C4: a failure during the outbound call never escapes makeRequest or
getUsage as an exception (both are total functions of the outcome in this
embedding): the failing operation returns the sentinel null and its only
notification is a single error event carrying the caught error. -/
theorem failure_sentinel_and_notification :
    (∀ (c : ClientState) (messages : List Messages) (user_id : Option String)
        (fresh : String) (outcome : Except Err Response),
        failureOutcome outcome = true →
        (Client.makeRequest c messages user_id fresh outcome).ret = none ∧
        ∃ e, (Client.makeRequest c messages user_id fresh outcome).events
              = [Event.error e]) ∧
    ∀ (c : ClientState) (user_id : String) (outcome : UsageOutcome),
        usageFailure outcome = true →
        (Client.getUsage c user_id outcome).ret = none ∧
        ∃ e, (Client.getUsage c user_id outcome).events = [Event.error e] := by
  constructor
  · intro c messages user_id fresh outcome h
    cases outcome with
    | error e =>
        exact ⟨by simp [Client.makeRequest], ⟨e, by simp [Client.makeRequest]⟩⟩
    | ok resp =>
        cases hc : resp.choices with
        | nil =>
            exact ⟨by simp [Client.makeRequest, hc],
              ⟨choicesTypeError, by simp [Client.makeRequest, hc]⟩⟩
        | cons ch rest =>
            exact absurd h (by simp [failureOutcome, successReply, hc])
  · intro c user_id outcome h
    cases outcome with
    | fail e => exact ⟨rfl, ⟨e, rfl⟩⟩
    | encodedBad e => exact ⟨rfl, ⟨e, rfl⟩⟩
    | structured r => exact absurd h (by simp [usageFailure, usageError])
    | encodedOk payload => exact absurd h (by simp [usageFailure, usageError])

/-- Witness for C4: a concrete network failure of each operation returns
null. -/
theorem failure_sentinel_and_notification_witness :
    (Client.makeRequest exClient [exUserMsg] (some "u1") "gen"
        (Except.error (Err.axios "boom"))).ret = none ∧
    (Client.getUsage exClient "u1" (UsageOutcome.fail (Err.axios "boom"))).ret
      = none :=
  ⟨(failure_sentinel_and_notification.1 exClient [exUserMsg] (some "u1") "gen"
      (Except.error (Err.axios "boom")) (by decide)).1,
    (failure_sentinel_and_notification.2 exClient "u1"
      (UsageOutcome.fail (Err.axios "boom")) (by decide)).1⟩

/-- C5, counterexample: when the result field arrives as a string encoding
the inner stats object (the value of the result field, which is what the
wire description says the string serializes), the decoded value replaces
the whole response body, so getUsage returns the bare inner object — a
different structure from the structured arrival, which returns the result
wrapper. -/
theorem usage_decode_shape_counterexample :
    (Client.getUsage exClient "u1" (UsageOutcome.encodedOk exStats.toJson)).ret
      = some exStats.toJson ∧
    (Client.getUsage exClient "u1" (UsageOutcome.structured exStats)).ret
      = some (statsResponseJson exStats) ∧
    exStats.toJson ≠ statsResponseJson exStats := by
  refine ⟨rfl, rfl, ?_⟩
  intro h
  simp [StatsResult.toJson, statsResponseJson, exStats] at h

/-- C5, amended: the decoded string replaces the entire response body, so
the returned value has the same structure as a structured arrival exactly
when the string encodes the full response body, result wrapper included;
for such strings the two arrivals return the same value. -/
theorem usage_decode_wrapped_shape (c : ClientState) (user_id : String)
    (r : StatsResult) :
    (Client.getUsage c user_id (UsageOutcome.encodedOk (statsResponseJson r))).ret
      = (Client.getUsage c user_id (UsageOutcome.structured r)).ret := rfl

/-- C6: the requestMade events of a makeRequest call are exactly one event
on success — carrying the resolved user id and the full post-update
history ending in the appended assistant reply — and none on failure; the
second conjunct identifies that payload with the stored post-update
history. -/
theorem requestMade_once_on_success (c : ClientState) (messages : List Messages)
    (user_id : Option String) (fresh : String) (outcome : Except Err Response) :
    ((Client.makeRequest c messages user_id fresh outcome).events.filter
        isRequestMadeEvent
      = match successReply outcome with
        | some content =>
            [Event.requestMade (resolveUserId user_id fresh)
              (histAt c (resolveUserId user_id fresh) ++ messages
                ++ [{ role := Role.assistant, content := content }])]
        | none => []) ∧
    histAt (Client.makeRequest c messages user_id fresh outcome).state
        (resolveUserId user_id fresh)
      = histAt c (resolveUserId user_id fresh) ++ messages
          ++ assistantSuffix outcome := by
  refine ⟨?_, makeRequest_histAt_resolved c messages user_id fresh outcome⟩
  cases outcome with
  | error e => simp [Client.makeRequest, successReply, isRequestMadeEvent]
  | ok resp =>
      cases hc : resp.choices with
      | nil => simp [Client.makeRequest, hc, successReply, isRequestMadeEvent]
      | cons ch rest =>
          simp [Client.makeRequest, hc, successReply, isRequestMadeEvent,
            histAt, get_user_history_snd]

/-- C7: the error events of a makeRequest call are exactly one event on
failure, carrying the caught error (the transport error itself, or the
TypeError from indexing an empty choices array), and none on success. -/
theorem error_event_once_on_failure (c : ClientState) (messages : List Messages)
    (user_id : Option String) (fresh : String) (outcome : Except Err Response) :
    (Client.makeRequest c messages user_id fresh outcome).events.filter
        isErrorEvent
      = match callError outcome with
        | some e => [Event.error e]
        | none => [] := by
  cases outcome with
  | error e => simp [Client.makeRequest, callError, isErrorEvent]
  | ok resp =>
      cases hc : resp.choices <;>
        simp [Client.makeRequest, hc, callError, isErrorEvent]

/-- C8: two makeRequest calls that omit user_id use their generated
identifiers; under the freshness that `crypto.randomUUID` provides —
neither generated identifier was previously a key of the store — the two
calls operate on two distinct, never-aliased history entries, each holding
exactly what its own call appended. -/
theorem omitted_user_id_distinct (c : ClientState) (m1 m2 : List Messages)
    (f1 f2 : String) (o1 o2 : Except Err Response)
    (h1 : mapGet c.user_histories f1 = none)
    (h2 : mapGet ((Client.makeRequest c m1 none f1 o1).state).user_histories f2
      = none) :
    f1 ≠ f2 ∧
    histAt (Client.makeRequest (Client.makeRequest c m1 none f1 o1).state
        m2 none f2 o2).state f1
      = m1 ++ assistantSuffix o1 ∧
    histAt (Client.makeRequest (Client.makeRequest c m1 none f1 o1).state
        m2 none f2 o2).state f2
      = m2 ++ assistantSuffix o2 := by
  have hres1 : resolveUserId none f1 = f1 := rfl
  have hres2 : resolveUserId none f2 = f2 := rfl
  have hself1 := makeRequest_mapGet_resolved c m1 none f1 o1
  rw [hres1] at hself1
  have hne : f1 ≠ f2 := by
    intro he
    rw [← he] at h2
    rw [hself1] at h2
    exact Option.noConfusion h2
  refine ⟨hne, ?_, ?_⟩
  · have hframe := makeRequest_mapGet_other
      (Client.makeRequest c m1 none f1 o1).state m2 none f2 o2 f1
      (by rw [hres2]; exact hne)
    simp only [histAt]
    rw [hframe, hself1]
    simp [histAt, h1]
  · have hself2 := makeRequest_mapGet_resolved
      (Client.makeRequest c m1 none f1 o1).state m2 none f2 o2
    rw [hres2] at hself2
    simp only [histAt]
    rw [hself2]
    simp [histAt, h2]

/-- Witness for C8: two concrete omitted-id calls with fresh generated
identifiers create two distinct entries. -/
theorem omitted_user_id_distinct_witness :
    ("uuid-1" : String) ≠ "uuid-2" ∧
    histAt (Client.makeRequest
        (Client.makeRequest exClient [exUserMsg] none "uuid-1"
          (Except.ok exResponse)).state
        [] none "uuid-2" (Except.error (Err.axios "boom"))).state "uuid-1"
      = [exUserMsg] ++ assistantSuffix (Except.ok exResponse) ∧
    histAt (Client.makeRequest
        (Client.makeRequest exClient [exUserMsg] none "uuid-1"
          (Except.ok exResponse)).state
        [] none "uuid-2" (Except.error (Err.axios "boom"))).state "uuid-2"
      = [] ++ assistantSuffix (Except.error (Err.axios "boom")) :=
  omitted_user_id_distinct exClient [exUserMsg] [] "uuid-1" "uuid-2"
    (Except.ok exResponse) (Except.error (Err.axios "boom"))
    (by decide) (by decide)

/-- C9, counterexample: an empty-string API key is a present argument, yet
construction throws "API key is required." — JavaScript truthiness treats
the empty string as absent. -/
theorem construct_empty_key_counterexample :
    Client.construct (some "") (some "gpt-4o")
      = Except.error "API key is required." := rfl

/-- C9, amended: an absent or empty-string API key throws "API key is
required."; otherwise an absent or empty-string model throws "Model is
required."; when both are present and non-empty the constructor succeeds
and stores both values (with an empty history store). -/
theorem construct_spec (api_key model : Option String) :
    (falsyStr api_key = true →
        Client.construct api_key model = Except.error "API key is required.") ∧
    (falsyStr api_key = false → falsyStr model = true →
        Client.construct api_key model = Except.error "Model is required.") ∧
    ∀ k m, api_key = some k → k ≠ "" → model = some m → m ≠ "" →
        Client.construct api_key model
          = Except.ok { api_key := k, model := m, user_histories := [] } := by
  refine ⟨?_, ?_, ?_⟩
  · intro h
    simp [Client.construct, h]
  · intro h1 h2
    simp [Client.construct, h1, h2]
  · intro k m hk hk0 hm hm0
    subst hk
    subst hm
    simp [Client.construct, falsyStr, hk0, hm0]

/-- Witness for the amended C9: constructing with a non-empty key and model
succeeds and stores them. -/
theorem construct_spec_witness :
    Client.construct (some "key") (some "gpt-4o")
      = Except.ok { api_key := "key", model := "gpt-4o", user_histories := [] } :=
  (construct_spec (some "key") (some "gpt-4o")).2.2 "key" "gpt-4o" rfl
    (by decide) rfl (by decide)

/-- C10: getUsage, whether it succeeds or fails, leaves the user-histories
store completely unchanged. -/
theorem getUsage_frame (c : ClientState) (user_id : String)
    (outcome : UsageOutcome) :
    (Client.getUsage c user_id outcome).state.user_histories
      = c.user_histories := by
  cases outcome <;> rfl
